import Mathlib

/-!
Verification development for the Yoga-based layout engine of an RmlUi-style
UI toolkit.  The C++ sources embedded here are:
  * `FontFace.h` / `FontFace.cpp` (font handle caching),
  * the Yoga layout engine translation unit (style adapter, measurement
    bridge, tree builder, layout applier, text line generation),
  * `LayoutDetails.cpp` (the standalone box model builder).
Floating point values are modelled as exact rationals; the C++ control flow
is translated statement by statement.
-/

namespace Layout

/-- `Style::LengthPercentage`: a resolved length or a percentage. -/
inductive LengthPercentage where
  | length (v : ℚ)
  | percentage (v : ℚ)
deriving DecidableEq

/-- `Style::LengthPercentageAuto`: auto, a resolved length, or a percentage. -/
inductive LengthPercentageAuto where
  | auto
  | length (v : ℚ)
  | percentage (v : ℚ)
deriving DecidableEq

/-- `Style::Overflow`. -/
inductive Overflow where
  | visible
  | hidden
  | scroll
  | auto
deriving DecidableEq

/-- `YGOverflow`: the solver-level overflow (Yoga has no distinct `auto`). -/
inductive YGOverflow where
  | visible
  | hidden
  | scroll
deriving DecidableEq

/-- `Style::BoxSizing`. -/
inductive BoxSizing where
  | contentBox
  | borderBox
deriving DecidableEq

/-- `BuildBoxMode` from `LayoutDetails.h`. -/
inductive BuildBoxMode where
  | Inline
  | UnalignedBlock
  | Block
deriving DecidableEq

/-- `ToYogaOverflow` (FontFace.h lines 165-177): Yoga's overflow does not
distinguish auto/scroll, so `auto` is forwarded as `scroll`. -/
def toYogaOverflow : Overflow → YGOverflow
  | .visible => .visible
  | .hidden => .hidden
  | .scroll => .scroll
  | .auto => .scroll

/-- Overflow-axis collapse from `ApplyYogaStyleToNode` (lines 506-515):
start from `overflow_x`, force `hidden` if either axis is hidden, else
`scroll` if either axis is scroll or auto, else `visible`. -/
def combinedOverflow (overflow_x overflow_y : Overflow) : Overflow :=
  let combined := overflow_x
  if overflow_y = .hidden ∨ combined = .hidden then .hidden
  else if overflow_y = .scroll ∨ overflow_y = .auto ∨ combined = .scroll ∨ combined = .auto then
    .scroll
  else .visible

/-- The large sentinel `1.0e20f` used by both max-dimension paths. -/
def sentinel : ℚ := 10 ^ 20

/-- `FLT_MAX`, the value RmlUi uses to represent a `none` max constraint. -/
def fltMax : ℚ := 2 ^ 128 - 2 ^ 104

/-- The max constraint actually forwarded to the Yoga node. -/
inductive MaxDimApplied where
  | length (v : ℚ)
  | percent (v : ℚ)
deriving DecidableEq

/-- `SetYogaMaxDimension` (FontFace.h lines 232-258), modelled by the
constraint it forwards: a `Length` strictly above the sentinel is skipped
(`none`), everything else is forwarded. -/
def setYogaMaxDimensionApplied : LengthPercentage → Option MaxDimApplied
  | .length v => if sentinel < v then none else some (.length v)
  | .percentage v => some (.percent v)

/-- `ClampMaxValue` (LayoutDetails.cpp lines 53-62): values at or above the
sentinel are mapped to `-1` (treated as unconstrained downstream). -/
def clampMaxValue (v : ℚ) : ℚ :=
  if sentinel ≤ v then -1 else v

/-- Modelled from the spec: `ResolveValue` for a length/percentage value
(declared outside the excerpt) resolves a percentage against the base
dimension and returns a length unchanged. -/
def resolveValueLP (v : LengthPercentage) (base : ℚ) : ℚ :=
  match v with
  | .length x => x
  | .percentage p => p * base / 100

/-- Modelled from the spec: `ResolveValueOr` for a length/percentage/auto
value resolves a percentage against the base dimension, returns a length
unchanged, and yields the default for `auto`. -/
def resolveValueOrLPA (v : LengthPercentageAuto) (base defaultValue : ℚ) : ℚ :=
  match v with
  | .auto => defaultValue
  | .length x => x
  | .percentage p => p * base / 100

/-- Whether a length/percentage/auto value is `auto`. -/
def isAuto : LengthPercentageAuto → Bool
  | .auto => true
  | _ => false

/-- The computed-style snapshot fields read by `LayoutDetails::BuildBox`. -/
structure ComputedBox where
  padding_top : LengthPercentage
  padding_right : LengthPercentage
  padding_bottom : LengthPercentage
  padding_left : LengthPercentage
  border_top_width : ℚ
  border_right_width : ℚ
  border_bottom_width : ℚ
  border_left_width : ℚ
  margin_top : LengthPercentageAuto
  margin_right : LengthPercentageAuto
  margin_bottom : LengthPercentageAuto
  margin_left : LengthPercentageAuto
  width : LengthPercentageAuto
  height : LengthPercentageAuto
  min_width : LengthPercentage
  min_height : LengthPercentage
  max_width : LengthPercentage
  max_height : LengthPercentage
  box_sizing : BoxSizing
deriving DecidableEq

/-- The output box of `BuildBox`: content size (negative = auto) plus the
padding, border and margin edges. -/
structure BoxOut where
  contentW : ℚ
  contentH : ℚ
  paddingTop : ℚ
  paddingRight : ℚ
  paddingBottom : ℚ
  paddingLeft : ℚ
  borderTop : ℚ
  borderRight : ℚ
  borderBottom : ℚ
  borderLeft : ℚ
  marginTop : ℚ
  marginRight : ℚ
  marginBottom : ℚ
  marginLeft : ℚ
deriving DecidableEq

/-- The horizontal auto-margin distribution step of `BuildBox`
(LayoutDetails.cpp lines 142-161), extracted verbatim: it fires only when
some horizontal margin is auto, the content width is definite, the
containing width is non-negative and the mode is `Block`. -/
def distributeAutoMargins (marginLeftAuto marginRightAuto : Bool)
    (marginLeft marginRight contentWidth borderPaddingX cbWidth : ℚ)
    (box_mode : BuildBoxMode) : ℚ × ℚ :=
  if (marginLeftAuto || marginRightAuto) ∧ 0 ≤ contentWidth ∧ 0 ≤ cbWidth ∧
      box_mode = .Block then
    let fixed := contentWidth + borderPaddingX +
      (if marginLeftAuto then 0 else marginLeft) +
      (if marginRightAuto then 0 else marginRight)
    let remaining := cbWidth - fixed
    if 0 < remaining then
      if marginLeftAuto && marginRightAuto then (remaining / 2, remaining / 2)
      else if marginLeftAuto then (remaining, marginRight)
      else if marginRightAuto then (marginLeft, remaining)
      else (marginLeft, marginRight)
    else (marginLeft, marginRight)
  else (marginLeft, marginRight)

/-- `border_padding_x` (LayoutDetails.cpp line 90): horizontal padding
(resolved against the containing width) plus horizontal borders. -/
def borderPaddingX (c : ComputedBox) (cbWidth : ℚ) : ℚ :=
  resolveValueLP c.padding_left cbWidth + resolveValueLP c.padding_right cbWidth +
    c.border_left_width + c.border_right_width

/-- `border_padding_y` (LayoutDetails.cpp line 91): vertical padding (still
resolved against the containing width, per CSS) plus vertical borders. -/
def borderPaddingY (c : ComputedBox) (cbWidth : ℚ) : ℚ :=
  resolveValueLP c.padding_top cbWidth + resolveValueLP c.padding_bottom cbWidth +
    c.border_top_width + c.border_bottom_width

/-- The content-width pipeline of `BuildBox` (lines 101-131): resolve the
specified width (negative sentinel for auto), force auto in inline mode,
subtract padding and border under border-box sizing, then apply min/max
clamping only when the width is definite, ignoring a max at or above the
sentinel. -/
def buildBoxContentWidth (containing : ℚ × ℚ) (c : ComputedBox)
    (box_mode : BuildBoxMode) : ℚ :=
  let cbWidth := containing.1
  let contentWidth := resolveValueOrLPA c.width cbWidth (-1)
  let contentWidth := if box_mode = .Inline then -1 else contentWidth
  let contentWidth :=
    if c.box_sizing = .borderBox ∧ 0 ≤ contentWidth then
      max 0 (contentWidth - borderPaddingX c cbWidth)
    else contentWidth
  if 0 ≤ contentWidth then
    let minW := resolveValueLP c.min_width cbWidth
    let maxW := clampMaxValue (resolveValueLP c.max_width cbWidth)
    let cw := max contentWidth minW
    if 0 ≤ maxW then min cw maxW else cw
  else contentWidth

/-- The content-height pipeline of `BuildBox` (lines 102-140), mirroring
the width pipeline with the containing height as base for the specified
height and min/max constraints. -/
def buildBoxContentHeight (containing : ℚ × ℚ) (c : ComputedBox)
    (box_mode : BuildBoxMode) : ℚ :=
  let cbWidth := containing.1
  let cbHeight := containing.2
  let contentHeight := resolveValueOrLPA c.height cbHeight (-1)
  let contentHeight := if box_mode = .Inline then -1 else contentHeight
  let contentHeight :=
    if c.box_sizing = .borderBox ∧ 0 ≤ contentHeight then
      max 0 (contentHeight - borderPaddingY c cbWidth)
    else contentHeight
  if 0 ≤ contentHeight then
    let minH := resolveValueLP c.min_height cbHeight
    let maxH := clampMaxValue (resolveValueLP c.max_height cbHeight)
    let ch := max contentHeight minH
    if 0 ≤ maxH then min ch maxH else ch
  else contentHeight

/-- `LayoutDetails::BuildBox` (LayoutDetails.cpp lines 64-179).  A null
element yields a box whose content is the containing block with all edges
zero.  Percentages for margins and paddings resolve against the containing
width; negative content size denotes `auto`. -/
def buildBox (containing : ℚ × ℚ) (element : Option ComputedBox)
    (box_mode : BuildBoxMode) : BoxOut :=
  match element with
  | none =>
      { contentW := containing.1, contentH := containing.2
        paddingTop := 0, paddingRight := 0, paddingBottom := 0, paddingLeft := 0
        borderTop := 0, borderRight := 0, borderBottom := 0, borderLeft := 0
        marginTop := 0, marginRight := 0, marginBottom := 0, marginLeft := 0 }
  | some c =>
      let cbWidth := containing.1
      let marginLeftAuto := isAuto c.margin_left
      let marginRightAuto := isAuto c.margin_right
      let marginLeft := if marginLeftAuto then 0 else resolveValueOrLPA c.margin_left cbWidth 0
      let marginRight := if marginRightAuto then 0 else resolveValueOrLPA c.margin_right cbWidth 0
      let marginTop := if isAuto c.margin_top then 0 else resolveValueOrLPA c.margin_top cbWidth 0
      let marginBottom := if isAuto c.margin_bottom then 0 else resolveValueOrLPA c.margin_bottom cbWidth 0
      let marginLeft := if box_mode = .Inline then 0 else marginLeft
      let marginRight := if box_mode = .Inline then 0 else marginRight
      let contentWidth := buildBoxContentWidth containing c box_mode
      let contentHeight := buildBoxContentHeight containing c box_mode
      let margins := distributeAutoMargins marginLeftAuto marginRightAuto
        marginLeft marginRight contentWidth (borderPaddingX c cbWidth) cbWidth box_mode
      { contentW := contentWidth, contentH := contentHeight
        paddingTop := resolveValueLP c.padding_top cbWidth
        paddingRight := resolveValueLP c.padding_right cbWidth
        paddingBottom := resolveValueLP c.padding_bottom cbWidth
        paddingLeft := resolveValueLP c.padding_left cbWidth
        borderTop := c.border_top_width, borderRight := c.border_right_width
        borderBottom := c.border_bottom_width, borderLeft := c.border_left_width
        marginTop := marginTop, marginRight := margins.2
        marginBottom := marginBottom, marginLeft := margins.1 }

/-- `YGMeasureMode`: exactly / at-most / undefined (unconstrained). -/
inductive MeasureMode where
  | exactly
  | atMost
  | undefined
deriving DecidableEq

/-- `FontMetrics`: the ascent/descent pair returned by the font engine
(zero-initialised when the font face or engine is unavailable). -/
structure FontMetrics where
  ascent : ℚ
  descent : ℚ
deriving DecidableEq

/-- One result of `ElementText::GenerateLine`: the produced line text, the
number of characters consumed, the line's width, and whether the end of the
text was reached. -/
structure LineResult where
  line : String
  lineLength : ℤ
  lineWidth : ℚ
  reachedEnd : Bool

/-- The text/font collaborator behind `GenerateLine`, abstracted as a
function of the current start offset and the maximum width (`none` denotes
an infinite width). -/
def LineOracle : Type := ℤ → Option ℚ → LineResult

/-- The iteration cap guarding both line-breaking loops. -/
def maxIterationCount : ℕ := 4096

/-- The wrapping width used by `YogaMeasureFunc` (lines 336-342, 355): the
width clamped to zero under exact/at-most modes, infinite otherwise. -/
def measureWrapWidth (width : ℚ) (width_mode : MeasureMode) : Option ℚ :=
  if width_mode = .exactly ∨ width_mode = .atMost then some (max 0 width) else none

/-- The trial line-breaking loop of `YogaMeasureFunc` (lines 353-373),
with the remaining iteration budget as fuel.  A request that consumes no
characters terminates the loop immediately; otherwise the maximum line
width and the line count are accumulated. -/
def measureLoopText (g : LineOracle) (maxWidth : Option ℚ) :
    ℕ → ℤ → ℕ → ℚ → ℕ × ℚ
  | 0, _, numLines, maxLineWidth => (numLines, maxLineWidth)
  | fuel + 1, lineBegin, numLines, maxLineWidth =>
    let r := g lineBegin maxWidth
    if r.lineLength ≤ 0 then (numLines, maxLineWidth)
    else
      let maxLineWidth := max maxLineWidth r.lineWidth
      let numLines := numLines + 1
      let lineBegin := lineBegin + r.lineLength
      if r.reachedEnd then (numLines, maxLineWidth)
      else measureLoopText g maxWidth fuel lineBegin numLines maxLineWidth

/-- The raw (line count, max line width) pair produced by the measurement
loop for a given width constraint. -/
def textMeasureRaw (g : LineOracle) (width : ℚ) (width_mode : MeasureMode) : ℕ × ℚ :=
  measureLoopText g (measureWrapWidth width width_mode) maxIterationCount 0 0 0

/-- The line count used for the measured height (lines 375-377): at least
one line, so empty text still reserves one line's height. -/
def measuredNumLines (g : LineOracle) (width : ℚ) (width_mode : MeasureMode) : ℕ :=
  let n := (textMeasureRaw g width width_mode).1
  if n = 0 then 1 else n

/-- The natural (unconstrained) measured width: the maximum line width seen. -/
def naturalTextWidth (g : LineOracle) (width : ℚ) (width_mode : MeasureMode) : ℚ :=
  (textMeasureRaw g width width_mode).2

/-- The tight line height `max(0, ascent + |descent|)` (line 389). -/
def tightLineHeight (m : FontMetrics) : ℚ :=
  max 0 (m.ascent + |m.descent|)

/-- The text branch of `YogaMeasureFunc` (lines 333-406): natural size from
the line-breaking loop, then per-dimension clamping by measure mode. -/
def yogaMeasureText (g : LineOracle) (m : FontMetrics) (width : ℚ)
    (width_mode : MeasureMode) (height : ℚ) (height_mode : MeasureMode) : ℚ × ℚ :=
  let measuredWidth := naturalTextWidth g width width_mode
  let measuredHeight := (measuredNumLines g width width_mode : ℚ) * tightLineHeight m
  let measuredWidth :=
    match width_mode with
    | .exactly => max 0 width
    | .atMost => min measuredWidth (max 0 width)
    | .undefined => measuredWidth
  let measuredHeight :=
    match height_mode with
    | .exactly => max 0 height
    | .atMost => min measuredHeight (max 0 height)
    | .undefined => measuredHeight
  (measuredWidth, measuredHeight)

/-- The replaced-element branch of `YogaMeasureFunc` (lines 408-439):
intrinsic dimensions clamped per mode, then the intrinsic aspect ratio
recomputes the unconstrained axis when exactly one axis is constrained,
and both final values are floored at zero. -/
def yogaMeasureReplaced (intrinsicW intrinsicH aspect width : ℚ)
    (width_mode : MeasureMode) (height : ℚ) (height_mode : MeasureMode) : ℚ × ℚ :=
  let widthDefinite := width_mode = .exactly ∨ width_mode = .atMost
  let heightDefinite := height_mode = .exactly ∨ height_mode = .atMost
  let measuredWidth :=
    match width_mode with
    | .exactly => max 0 width
    | .atMost => min intrinsicW (max 0 width)
    | .undefined => intrinsicW
  let measuredHeight :=
    match height_mode with
    | .exactly => max 0 height
    | .atMost => min intrinsicH (max 0 height)
    | .undefined => intrinsicH
  let pair :=
    if 0 < aspect then
      if widthDefinite ∧ ¬heightDefinite then (measuredWidth, measuredWidth / aspect)
      else if heightDefinite ∧ ¬widthDefinite then (measuredHeight * aspect, measuredHeight)
      else (measuredWidth, measuredHeight)
    else (measuredWidth, measuredHeight)
  (max 0 pair.1, max 0 pair.2)

/-- The text baseline of `YogaBaselineFunc` (lines 298-324): line height and
font height each floored at zero, then `baseline = leading/2 + ascent` with
`leading = max(0, line_height - font_height)`. -/
def ygBaselineText (m : FontMetrics) (lineHeightIn : ℚ) : ℚ :=
  let line_height := max 0 lineHeightIn
  let font_height := max 0 (m.ascent + |m.descent|)
  let leading := max 0 (line_height - font_height)
  leading / 2 + m.ascent

/-- The baseline offset computed by `GenerateTextLines` (lines 576-579):
the same quantity as `ygBaselineText` but passed through `std::floor`. -/
def genBaselineOffset (m : FontMetrics) (lineHeightIn : ℚ) : ℚ :=
  let font_height := max 0 (m.ascent + |m.descent|)
  let line_height := max 0 lineHeightIn
  let leading := max 0 (line_height - font_height)
  (⌊leading / 2 + m.ascent⌋ : ℚ)

/-- One stored text line: its position and its text slice. -/
structure TextLine where
  position : ℚ × ℚ
  text : String
deriving DecidableEq

/-- The line-generation loop of `GenerateTextLines` (lines 587-606), with
the remaining iteration budget as fuel.  A request that consumes no
characters stops the loop, emitting one empty line if none was produced. -/
def generateTextLinesLoop (g : LineOracle) (maxWidth baselineOffset lineHeight : ℚ) :
    ℕ → ℤ → ℕ → List TextLine → List TextLine
  | 0, _, _, lines => lines
  | fuel + 1, lineBegin, lineIndex, lines =>
    let r := g lineBegin (some maxWidth)
    if r.lineLength ≤ 0 then
      if lineIndex = 0 then lines ++ [⟨(0, baselineOffset), ""⟩] else lines
    else
      let baselineY := baselineOffset + (lineIndex : ℚ) * lineHeight
      let lines := lines ++ [⟨(0, baselineY), r.line⟩]
      let lineIndex := lineIndex + 1
      let lineBegin := lineBegin + r.lineLength
      if r.reachedEnd then lines
      else generateTextLinesLoop g maxWidth baselineOffset lineHeight fuel lineBegin lineIndex lines

/-- `GenerateTextLines` (lines 558-607): clear prior lines, compute the
floored baseline offset, then run the bounded line-breaking loop at the
clamped available width. -/
def generateTextLines (g : LineOracle) (availableWidth : ℚ) (m : FontMetrics)
    (lineHeightIn : ℚ) : List TextLine :=
  let maxWidth := max 0 availableWidth
  let baselineOffset := genBaselineOffset m lineHeightIn
  let lineHeight := max 0 lineHeightIn
  generateTextLinesLoop g maxWidth baselineOffset lineHeight maxIterationCount 0 0 []

/-- An element as seen by `BuildYogaTreeRecursive`: whether it is a text
element, its intrinsic dimensions and aspect if it is replaced, and its
children (a null child is `none` and is skipped). -/
inductive Elem where
  | mk (textual : Bool) (intrinsic : Option (ℚ × ℚ × ℚ)) (children : List (Option Elem))

/-- Whether the element is a text element (`rmlui_dynamic_cast<ElementText*>`). -/
def Elem.textual : Elem → Bool
  | .mk t _ _ => t

/-- The element's intrinsic dimensions, when `GetIntrinsicDimensions` succeeds. -/
def Elem.intrinsic : Elem → Option (ℚ × ℚ × ℚ)
  | .mk _ i _ => i

/-- The element's children as returned by `GetChild` (null children included). -/
def Elem.children : Elem → List (Option Elem)
  | .mk _ _ cs => cs

/-- A generic layout-tree node as produced by `BuildYogaTreeRecursive`,
keeping the attached callbacks and the expanded children. -/
inductive YNode where
  | mk (hasMeasure : Bool) (hasBaseline : Bool) (children : List YNode)

/-- Whether a measure callback was attached to the node. -/
def YNode.hasMeasure : YNode → Bool
  | .mk m _ _ => m

/-- Whether a baseline callback was attached to the node. -/
def YNode.hasBaseline : YNode → Bool
  | .mk _ b _ => b

/-- The node's expanded children. -/
def YNode.children : YNode → List YNode
  | .mk _ _ cs => cs

mutual

/-- `BuildYogaTreeRecursive` (lines 518-556): a node is a measured leaf iff
the element has zero children and is text or replaced; otherwise every
non-null child is expanded in order. -/
def buildYogaTree : Elem → YNode
  | .mk textual intrinsic cs =>
    if (cs.length == 0) && (textual || intrinsic.isSome) then
      .mk true textual []
    else
      .mk false false (buildYogaChildren cs)

/-- The child-expansion loop of `BuildYogaTreeRecursive` (lines 542-549):
null children are skipped, others are built recursively in order. -/
def buildYogaChildren : List (Option Elem) → List YNode
  | [] => []
  | none :: rest => buildYogaChildren rest
  | some c :: rest => buildYogaTree c :: buildYogaChildren rest

end

/-- The per-node layout values read back from the solved Yoga node in
`ApplyLayoutRecursive` (lines 613-632). -/
structure NodeLayoutVals where
  left : ℚ
  top : ℚ
  width : ℚ
  height : ℚ
  marginLeft : ℚ
  marginTop : ℚ
  marginRight : ℚ
  marginBottom : ℚ
  paddingLeft : ℚ
  paddingTop : ℚ
  paddingRight : ℚ
  paddingBottom : ℚ
  borderLeft : ℚ
  borderTop : ℚ
  borderRight : ℚ
  borderBottom : ℚ

/-- A solved layout node: its resolved values plus its solved children. -/
inductive LayoutNode where
  | mk (vals : NodeLayoutVals) (children : List LayoutNode)

/-- The solved per-node values. -/
def LayoutNode.vals : LayoutNode → NodeLayoutVals
  | .mk v _ => v

/-- The solved children. -/
def LayoutNode.children : LayoutNode → List LayoutNode
  | .mk _ cs => cs

/-- The geometry written back onto one element by `ApplyLayoutRecursive`:
border-box position, clamped content size, copied padding and border edges,
and the scrollable overflow size. -/
structure AppliedVals where
  borderPos : ℚ × ℚ
  contentW : ℚ
  contentH : ℚ
  paddingLeft : ℚ
  paddingTop : ℚ
  paddingRight : ℚ
  paddingBottom : ℚ
  borderLeft : ℚ
  borderTop : ℚ
  borderRight : ℚ
  borderBottom : ℚ
  scrollW : ℚ
  scrollH : ℚ

/-- The applied element tree mirroring the walked subtree. -/
inductive AppliedElem where
  | mk (vals : AppliedVals) (children : List AppliedElem)

/-- The values written onto this element. -/
def AppliedElem.vals : AppliedElem → AppliedVals
  | .mk v _ => v

/-- The applied children. -/
def AppliedElem.children : AppliedElem → List AppliedElem
  | .mk _ cs => cs

/-- Modelled from the spec (the `Box` class is outside the excerpt): the
border-box size is the content size expanded by padding and border edges. -/
def appliedBorderSize (e : AppliedElem) : ℚ × ℚ :=
  (e.vals.contentW + e.vals.paddingLeft + e.vals.paddingRight +
     e.vals.borderLeft + e.vals.borderRight,
   e.vals.contentH + e.vals.paddingTop + e.vals.paddingBottom +
     e.vals.borderTop + e.vals.borderBottom)

mutual

/-- `ApplyLayoutRecursive` (lines 609-699) on the matched node/element tree:
content size clamped at zero, border position from the parent content
position plus the solved offset, children applied with a `(0,0)` parent
content position, and the scrollable overflow accumulated from the
padding-expanded content box and every child's border-box extent relative
to this element's content origin.  Positions of the content area within
the border box are modelled from the spec (the `Box` class is outside the
excerpt) as the border plus padding edges. -/
def applyLayoutRecursive : LayoutNode → ℚ × ℚ → AppliedElem
  | .mk v cs, parentContentPos =>
    let contentW := max 0 (v.width - (v.paddingLeft + v.paddingRight + v.borderLeft + v.borderRight))
    let contentH := max 0 (v.height - (v.paddingTop + v.paddingBottom + v.borderTop + v.borderBottom))
    let borderPos := (parentContentPos.1 + v.left, parentContentPos.2 + v.top)
    let elementContentPos := (v.borderLeft + v.paddingLeft, v.borderTop + v.paddingTop)
    let childOuts := applyLayoutChildren cs
    let contentOverflow := childOuts.foldl
      (fun acc ch =>
        let chPos := (ch.vals.borderPos.1 - elementContentPos.1,
                      ch.vals.borderPos.2 - elementContentPos.2)
        let chSize := appliedBorderSize ch
        (max acc.1 (chPos.1 + chSize.1), max acc.2 (chPos.2 + chSize.2)))
      (0, 0)
    let paddingSizeW := contentW + v.paddingLeft + v.paddingRight
    let paddingSizeH := contentH + v.paddingTop + v.paddingBottom
    let scrollW := max paddingSizeW (v.paddingLeft + contentOverflow.1)
    let scrollH := max paddingSizeH (v.paddingTop + contentOverflow.2)
    .mk
      { borderPos := borderPos, contentW := contentW, contentH := contentH
        paddingLeft := v.paddingLeft, paddingTop := v.paddingTop
        paddingRight := v.paddingRight, paddingBottom := v.paddingBottom
        borderLeft := v.borderLeft, borderTop := v.borderTop
        borderRight := v.borderRight, borderBottom := v.borderBottom
        scrollW := scrollW, scrollH := scrollH }
      childOuts

/-- The child-application loop (lines 666-681): every matched child is
applied with a `(0,0)` parent content position. -/
def applyLayoutChildren : List LayoutNode → List AppliedElem
  | [] => []
  | c :: rest => applyLayoutRecursive c (0, 0) :: applyLayoutChildren rest

end

mutual

/-- Decidable check that every element of an applied tree has a scrollable
overflow at least its padding-expanded content box size, on both axes. -/
def scrollInvAll : AppliedElem → Bool
  | .mk v cs =>
    (decide (v.contentW + v.paddingLeft + v.paddingRight ≤ v.scrollW) &&
     decide (v.contentH + v.paddingTop + v.paddingBottom ≤ v.scrollH)) &&
    scrollInvList cs

/-- List version of `scrollInvAll`. -/
def scrollInvList : List AppliedElem → Bool
  | [] => true
  | e :: rest => scrollInvAll e && scrollInvList rest

end

/-- `MakeHandleKey` (FontFace.cpp lines 33-39): pack the size and the
synthetic weight delta, each clamped at zero and truncated to 32 bits, into
one 64-bit key. -/
def makeHandleKey (size synthetic_weight_delta : ℤ) : ℕ :=
  ((max size 0).toNat % 2 ^ 32) * 2 ^ 32 + ((max synthetic_weight_delta 0).toNat % 2 ^ 32)

/-- The state of one `FontFace`: whether the FreeType face is still alive,
the handle map (`some none` is a stored null entry, `some (some h)` a
stored live handle), and a counter standing in for fresh handle
allocation. -/
structure FontFaceState where
  faceValid : Bool
  handles : ℕ → Option (Option ℕ)
  nextId : ℕ

/-- `FontFace::GetHandle` (FontFace.cpp lines 42-72).  `initOk` abstracts
`FontFaceHandleDefault::Initialize` (a function of size, the
load-default-glyphs flag and the clamped weight delta); a failed
initialization stores a null entry under the key, a released face returns
null without storing anything. -/
def getHandle (initOk : ℤ → Bool → ℤ → Bool) (st : FontFaceState)
    (size : ℤ) (load_default_glyphs : Bool) (synthetic_weight_delta : ℤ) :
    Option ℕ × FontFaceState :=
  let delta := max synthetic_weight_delta 0
  let key := makeHandleKey size delta
  match st.handles key with
  | some v => (v, st)
  | none =>
    if !st.faceValid then (none, st)
    else if initOk size load_default_glyphs delta then
      (some st.nextId,
        { faceValid := st.faceValid
          handles := fun k => if k = key then some (some st.nextId) else st.handles k
          nextId := st.nextId + 1 })
    else
      (none,
        { faceValid := st.faceValid
          handles := fun k => if k = key then some none else st.handles k
          nextId := st.nextId })

/-! ## Concrete inputs used by witnesses and counterexamples -/

/-- A computed-style snapshot with zero paddings/borders/margins, auto
dimensions, zero min constraints and `FLT_MAX` (RmlUi's `none`) max
constraints. -/
def plainBox : ComputedBox where
  padding_top := .length 0
  padding_right := .length 0
  padding_bottom := .length 0
  padding_left := .length 0
  border_top_width := 0
  border_right_width := 0
  border_bottom_width := 0
  border_left_width := 0
  margin_top := .length 0
  margin_right := .length 0
  margin_bottom := .length 0
  margin_left := .length 0
  width := .auto
  height := .auto
  min_width := .length 0
  min_height := .length 0
  max_width := .length fltMax
  max_height := .length fltMax
  box_sizing := .contentBox

/-- An element with definite width 100, an auto left margin, and a
non-auto right margin of -200 (negative margins are legal in CSS). -/
def autoMarginCexBox : ComputedBox :=
  { plainBox with width := .length 100, margin_left := .auto, margin_right := .length (-200) }

/-- An element with definite width 100 and both horizontal margins auto. -/
def centeringBox : ComputedBox :=
  { plainBox with width := .length 100, margin_left := .auto, margin_right := .auto }

/-- A `GenerateLine` collaborator for empty text: every request consumes
nothing and reports that the end of the text was reached. -/
def emptyTextOracle : LineOracle := fun _ _ => ⟨"", 0, 0, true⟩

/-- A fresh `FontFace` state: live face, empty handle map. -/
def freshFontFaceState : FontFaceState where
  faceValid := true
  handles := fun _ => none
  nextId := 0

/-! ## Theorems -/

/-- The margin pair stored by `BuildBox` is the auto-margin distribution
applied to the pre-resolved margins, the content width and the horizontal
border+padding. -/
theorem buildBox_marginLR (cb : ℚ × ℚ) (c : ComputedBox) :
    ((buildBox cb (some c) .Block).marginLeft, (buildBox cb (some c) .Block).marginRight) =
      distributeAutoMargins (isAuto c.margin_left) (isAuto c.margin_right)
        (if isAuto c.margin_left then 0 else resolveValueOrLPA c.margin_left cb.1 0)
        (if isAuto c.margin_right then 0 else resolveValueOrLPA c.margin_right cb.1 0)
        (buildBoxContentWidth cb c .Block) (borderPaddingX c cb.1) cb.1 .Block := rfl

/-- The content width stored by `BuildBox` is the width pipeline's result. -/
theorem buildBox_contentW_eq (cb : ℚ × ℚ) (c : ComputedBox) (box_mode : BuildBoxMode) :
    (buildBox cb (some c) box_mode).contentW = buildBoxContentWidth cb c box_mode := rfl

/-- C2: for every pair of per-axis overflow values, the Style Adapter
collapses them to a single solver-level overflow: hidden if either axis is
hidden; otherwise scroll if either axis is scroll or auto; otherwise
visible.  The particular triples of the claim are instances. -/
theorem overflow_collapse_spec :
    ∀ overflow_x overflow_y : Overflow,
      toYogaOverflow (combinedOverflow overflow_x overflow_y) =
        (if overflow_x = .hidden ∨ overflow_y = .hidden then YGOverflow.hidden
         else if overflow_x = .scroll ∨ overflow_x = .auto ∨ overflow_y = .scroll ∨
             overflow_y = .auto then YGOverflow.scroll
         else YGOverflow.visible) := by
  intro overflow_x overflow_y
  cases overflow_x <;> cases overflow_y <;> rfl

/-- C5 counterexample: with ascent 21/2, descent 0 and resolved line height
21/2, the measurement baseline callback returns 21/2 while the baseline
offset used by text line regeneration is the floored value 10, so the two
baselines are not equal as the claim states (the claimed formula gives the
callback's value 21/2 here). -/
theorem baseline_floor_cex :
    genBaselineOffset ⟨21 / 2, 0⟩ (21 / 2) ≠ ygBaselineText ⟨21 / 2, 0⟩ (21 / 2) ∧
    ygBaselineText ⟨21 / 2, 0⟩ (21 / 2) =
      (21 / 2 : ℚ) + max 0 (max 0 (21 / 2) - max 0 ((21 / 2 : ℚ) + |(0 : ℚ)|)) / 2 := by
  constructor
  · norm_num [genBaselineOffset, ygBaselineText, max_def]
  · norm_num [ygBaselineText, max_def]

/-- C5 amended: the baseline offset used by `GenerateTextLines` equals the
floor of the baseline returned by `YogaBaselineFunc`; that callback
baseline is ascent plus half of `max 0 (line-height − font-height)`, with
font-height `= max 0 (ascent + |descent|)` and the line height floored at
zero. -/
theorem baseline_floor_refinement (m : FontMetrics) (lh : ℚ) :
    genBaselineOffset m lh = (⌊ygBaselineText m lh⌋ : ℚ) ∧
    ygBaselineText m lh =
      m.ascent + max 0 (max 0 lh - max 0 (m.ascent + |m.descent|)) / 2 := by
  constructor
  · rfl
  · show max 0 (max 0 lh - max 0 (m.ascent + |m.descent|)) / 2 + m.ascent = _
    ring

/-- C1 counterexample: a max-width length of exactly the sentinel `1.0e20`
is at the threshold, yet `SetYogaMaxDimension` forwards it as a max
constraint (its test is strict), contradicting the claim that values at or
above the sentinel are never applied. -/
theorem max_dimension_sentinel_cex :
    setYogaMaxDimensionApplied (.length sentinel) = some (.length sentinel) ∧
    sentinel ≤ sentinel := by
  refine ⟨?_, le_rfl⟩
  simp [setYogaMaxDimensionApplied]

/-- C1 amended: `SetYogaMaxDimension` drops a max length only strictly
above the sentinel `1.0e20`, while `ClampMaxValue` treats values at or
above the sentinel as unconstrained, so `BuildBox` resolves the same box as
with any other sentinel-range max (in particular with the `FLT_MAX`
representation of `none`), for width and height alike. -/
theorem max_dimension_sentinel_amended :
    (∀ v : ℚ, sentinel < v → setYogaMaxDimensionApplied (.length v) = none) ∧
    (∀ v : ℚ, sentinel ≤ v → clampMaxValue v = -1) ∧
    (∀ (cb : ℚ × ℚ) (c : ComputedBox) (box_mode : BuildBoxMode) (m : LengthPercentage),
      sentinel ≤ resolveValueLP c.max_width cb.1 → sentinel ≤ resolveValueLP m cb.1 →
      buildBox cb (some c) box_mode = buildBox cb (some { c with max_width := m }) box_mode) ∧
    (∀ (cb : ℚ × ℚ) (c : ComputedBox) (box_mode : BuildBoxMode) (m : LengthPercentage),
      sentinel ≤ resolveValueLP c.max_height cb.2 → sentinel ≤ resolveValueLP m cb.2 →
      buildBox cb (some c) box_mode = buildBox cb (some { c with max_height := m }) box_mode) := by
  refine ⟨?_, ?_, ?_, ?_⟩
  · intro v hv
    simp [setYogaMaxDimensionApplied, hv]
  · intro v hv
    simp [clampMaxValue, hv]
  · intro cb c box_mode m h1 h2
    obtain ⟨pt, pr, pb, pl, bt, br, bb, bl, mt, mr, mb, ml, w, h, minw, minh, maxw, maxh, bs⟩ := c
    simp only [buildBox, buildBoxContentWidth, buildBoxContentHeight, borderPaddingX,
      borderPaddingY] at h1 h2 ⊢
    rw [show clampMaxValue (resolveValueLP maxw cb.1) = -1 from by simp [clampMaxValue, h1],
        show clampMaxValue (resolveValueLP m cb.1) = -1 from by simp [clampMaxValue, h2]]
  · intro cb c box_mode m h1 h2
    obtain ⟨pt, pr, pb, pl, bt, br, bb, bl, mt, mr, mb, ml, w, h, minw, minh, maxw, maxh, bs⟩ := c
    simp only [buildBox, buildBoxContentWidth, buildBoxContentHeight, borderPaddingX,
      borderPaddingY] at h1 h2 ⊢
    rw [show clampMaxValue (resolveValueLP maxh cb.2) = -1 from by simp [clampMaxValue, h1],
        show clampMaxValue (resolveValueLP m cb.2) = -1 from by simp [clampMaxValue, h2]]

/-- C1 witness: the amended sentinel behaviour evaluated at concrete
inputs: a value strictly above the sentinel is dropped by the adapter, the
sentinel itself is clamped by `ClampMaxValue`, and `BuildBox` output is
unchanged when a sentinel max-width/height is replaced by `FLT_MAX`. -/
theorem max_dimension_sentinel_wit :
    setYogaMaxDimensionApplied (.length (sentinel + 1)) = none ∧
    clampMaxValue sentinel = -1 ∧
    buildBox (100, 50) (some { plainBox with max_width := .length sentinel }) .Block =
      buildBox (100, 50) (some { plainBox with max_width := .length fltMax }) .Block ∧
    buildBox (100, 50) (some { plainBox with max_height := .length sentinel }) .Block =
      buildBox (100, 50) (some { plainBox with max_height := .length fltMax }) .Block := by
  refine ⟨max_dimension_sentinel_amended.1 _ (lt_add_one sentinel),
    max_dimension_sentinel_amended.2.1 _ le_rfl,
    max_dimension_sentinel_amended.2.2.1 (100, 50) _ .Block _ le_rfl ?_,
    max_dimension_sentinel_amended.2.2.2 (100, 50) _ .Block _ le_rfl ?_⟩ <;>
  · show sentinel ≤ fltMax
    norm_num [sentinel, fltMax]

/-- The auto-margin step with both horizontal margins auto, in block mode
with definite content width and non-negative containing width: positive
remaining space is split evenly, otherwise the incoming margins are kept. -/
theorem distributeAutoMargins_bothAuto (ml mr cw bp cbw : ℚ)
    (hcw : 0 ≤ cw) (hcb : 0 ≤ cbw) :
    distributeAutoMargins true true ml mr cw bp cbw .Block =
      if 0 < cbw - (cw + bp) then ((cbw - (cw + bp)) / 2, (cbw - (cw + bp)) / 2)
      else (ml, mr) := by
  simp only [distributeAutoMargins]
  rw [if_pos ⟨by trivial, hcw, hcb, by trivial⟩]
  split_ifs <;> simp_all

/-- The auto-margin step with only the left margin auto: positive
remaining space (after the non-auto right margin) goes entirely to the
left margin. -/
theorem distributeAutoMargins_leftAuto (ml mr cw bp cbw : ℚ)
    (hcw : 0 ≤ cw) (hcb : 0 ≤ cbw) :
    distributeAutoMargins true false ml mr cw bp cbw .Block =
      if 0 < cbw - (cw + bp + mr) then (cbw - (cw + bp + mr), mr) else (ml, mr) := by
  simp only [distributeAutoMargins]
  rw [if_pos ⟨by trivial, hcw, hcb, by trivial⟩]
  split_ifs <;> simp_all

/-- The auto-margin step with only the right margin auto: positive
remaining space (after the non-auto left margin) goes entirely to the
right margin. -/
theorem distributeAutoMargins_rightAuto (ml mr cw bp cbw : ℚ)
    (hcw : 0 ≤ cw) (hcb : 0 ≤ cbw) :
    distributeAutoMargins false true ml mr cw bp cbw .Block =
      if 0 < cbw - (cw + bp + ml) then (ml, cbw - (cw + bp + ml)) else (ml, mr) := by
  simp only [distributeAutoMargins]
  rw [if_pos ⟨by trivial, hcw, hcb, by trivial⟩]
  split_ifs <;> simp_all

/-- C9 counterexample: with containing width -1, definite content width
100, left margin auto and right margin -200, the remaining space
`cb_width - content - padding - border - non-auto margins` is 99 > 0, yet
`BuildBox` leaves the auto left margin at 0 because it additionally
requires a non-negative containing width, contradicting the claim that the
single auto margin receives the remaining space. -/
theorem buildBox_auto_margins_cex :
    (buildBox (-1, 0) (some autoMarginCexBox) .Block).contentW = 100 ∧
    (-1 : ℚ) - ((buildBox (-1, 0) (some autoMarginCexBox) .Block).contentW +
        borderPaddingX autoMarginCexBox (-1) + (-200)) = 99 ∧
    (buildBox (-1, 0) (some autoMarginCexBox) .Block).marginLeft = 0 := by
  have hW : (buildBox (-1, 0) (some autoMarginCexBox) .Block).contentW = 100 := by
    rw [buildBox_contentW_eq]
    simp only [buildBoxContentWidth, autoMarginCexBox, plainBox, resolveValueOrLPA,
      resolveValueLP, borderPaddingX, clampMaxValue]
    split_ifs <;> norm_num [sentinel, fltMax] at *
  have hBP : borderPaddingX autoMarginCexBox (-1) = 0 := by
    norm_num [borderPaddingX, autoMarginCexBox, plainBox, resolveValueLP]
  refine ⟨hW, by rw [hW, hBP]; norm_num, ?_⟩
  have h := congrArg Prod.fst (buildBox_marginLR (-1, 0) autoMarginCexBox)
  simp only at h
  rw [h]
  simp only [distributeAutoMargins, autoMarginCexBox, plainBox, isAuto]
  norm_num

/-- C9 amended: in `BuildBox` block mode, when the resolved content width
is definite AND the containing width is non-negative, positive remaining
space (containing width minus content width, padding, border and non-auto
margins) is split evenly between two auto margins or given entirely to the
single auto margin, and non-positive remaining space leaves auto margins
at 0. -/
theorem buildBox_auto_margins_amended (cb : ℚ × ℚ) (c : ComputedBox)
    (hcb : 0 ≤ cb.1)
    (hdef : 0 ≤ (buildBox cb (some c) .Block).contentW) :
    (c.margin_left = .auto → c.margin_right = .auto →
      (0 < cb.1 - ((buildBox cb (some c) .Block).contentW + borderPaddingX c cb.1) →
        (buildBox cb (some c) .Block).marginLeft =
          (cb.1 - ((buildBox cb (some c) .Block).contentW + borderPaddingX c cb.1)) / 2 ∧
        (buildBox cb (some c) .Block).marginRight =
          (cb.1 - ((buildBox cb (some c) .Block).contentW + borderPaddingX c cb.1)) / 2) ∧
      (cb.1 - ((buildBox cb (some c) .Block).contentW + borderPaddingX c cb.1) ≤ 0 →
        (buildBox cb (some c) .Block).marginLeft = 0 ∧
        (buildBox cb (some c) .Block).marginRight = 0)) ∧
    (c.margin_left = .auto → ¬c.margin_right = .auto →
      (buildBox cb (some c) .Block).marginRight = resolveValueOrLPA c.margin_right cb.1 0 ∧
      (0 < cb.1 - ((buildBox cb (some c) .Block).contentW + borderPaddingX c cb.1 +
          resolveValueOrLPA c.margin_right cb.1 0) →
        (buildBox cb (some c) .Block).marginLeft =
          cb.1 - ((buildBox cb (some c) .Block).contentW + borderPaddingX c cb.1 +
            resolveValueOrLPA c.margin_right cb.1 0)) ∧
      (cb.1 - ((buildBox cb (some c) .Block).contentW + borderPaddingX c cb.1 +
          resolveValueOrLPA c.margin_right cb.1 0) ≤ 0 →
        (buildBox cb (some c) .Block).marginLeft = 0)) ∧
    (¬c.margin_left = .auto → c.margin_right = .auto →
      (buildBox cb (some c) .Block).marginLeft = resolveValueOrLPA c.margin_left cb.1 0 ∧
      (0 < cb.1 - ((buildBox cb (some c) .Block).contentW + borderPaddingX c cb.1 +
          resolveValueOrLPA c.margin_left cb.1 0) →
        (buildBox cb (some c) .Block).marginRight =
          cb.1 - ((buildBox cb (some c) .Block).contentW + borderPaddingX c cb.1 +
            resolveValueOrLPA c.margin_left cb.1 0)) ∧
      (cb.1 - ((buildBox cb (some c) .Block).contentW + borderPaddingX c cb.1 +
          resolveValueOrLPA c.margin_left cb.1 0) ≤ 0 →
        (buildBox cb (some c) .Block).marginRight = 0)) := by
  have hML := congrArg Prod.fst (buildBox_marginLR cb c)
  have hMR := congrArg Prod.snd (buildBox_marginLR cb c)
  simp only at hML hMR
  rw [buildBox_contentW_eq] at hdef
  refine ⟨?_, ?_, ?_⟩
  · intro hl hr
    have el : isAuto c.margin_left = true := by rw [hl]; rfl
    have er : isAuto c.margin_right = true := by rw [hr]; rfl
    rw [buildBox_contentW_eq, hML, hMR, el, er,
      distributeAutoMargins_bothAuto _ _ _ _ _ hdef hcb]
    constructor
    · intro hpos
      rw [if_pos hpos]
      exact ⟨rfl, rfl⟩
    · intro hnonpos
      rw [if_neg (not_lt.mpr hnonpos)]
      norm_num
  · intro hl hr
    have el : isAuto c.margin_left = true := by rw [hl]; rfl
    have er : isAuto c.margin_right = false := by
      cases h : c.margin_right <;> simp_all [isAuto]
    have hmr : (if (false = true) then (0 : ℚ)
        else resolveValueOrLPA c.margin_right cb.1 0) =
        resolveValueOrLPA c.margin_right cb.1 0 := by norm_num
    rw [buildBox_contentW_eq, hML, hMR, el, er, hmr,
      distributeAutoMargins_leftAuto _ _ _ _ _ hdef hcb]
    refine ⟨?_, ?_, ?_⟩
    · split_ifs <;> rfl
    · intro hpos
      rw [if_pos hpos]
    · intro hnonpos
      rw [if_neg (not_lt.mpr hnonpos)]
      norm_num
  · intro hl hr
    have el : isAuto c.margin_left = false := by
      cases h : c.margin_left <;> simp_all [isAuto]
    have er : isAuto c.margin_right = true := by rw [hr]; rfl
    have hml : (if (false = true) then (0 : ℚ)
        else resolveValueOrLPA c.margin_left cb.1 0) =
        resolveValueOrLPA c.margin_left cb.1 0 := by norm_num
    rw [buildBox_contentW_eq, hML, hMR, el, er, hml,
      distributeAutoMargins_rightAuto _ _ _ _ _ hdef hcb]
    refine ⟨?_, ?_, ?_⟩
    · split_ifs <;> rfl
    · intro hpos
      rw [if_pos hpos]
    · intro hnonpos
      rw [if_neg (not_lt.mpr hnonpos)]
      norm_num

/-- C9 witness: containing width 300, content width 100, both margins
auto, no padding or border: the amended auto-margin rule yields
`margin_left = margin_right = 100`. -/
theorem buildBox_auto_margins_wit :
    (buildBox (300, 300) (some centeringBox) .Block).marginLeft = 100 ∧
    (buildBox (300, 300) (some centeringBox) .Block).marginRight = 100 := by
  have hW : (buildBox (300, 300) (some centeringBox) .Block).contentW = 100 := by
    rw [buildBox_contentW_eq]
    simp only [buildBoxContentWidth, centeringBox, plainBox, resolveValueOrLPA,
      resolveValueLP, borderPaddingX, clampMaxValue]
    split_ifs <;> norm_num [sentinel, fltMax] at *
  have hBP : borderPaddingX centeringBox (300, 300).1 = 0 := by
    norm_num [borderPaddingX, centeringBox, plainBox, resolveValueLP]
  have h := buildBox_auto_margins_amended (300, 300) centeringBox (by norm_num)
    (by rw [hW]; norm_num)
  have hpos : (0 : ℚ) < (300, 300).1 -
      ((buildBox (300, 300) (some centeringBox) .Block).contentW +
        borderPaddingX centeringBox (300, 300).1) := by
    rw [hW, hBP]; norm_num
  obtain ⟨hml, hmr⟩ := (h.1 rfl rfl).1 hpos
  refine ⟨?_, ?_⟩
  · rw [hml, hW, hBP]; norm_num
  · rw [hmr, hW, hBP]; norm_num

/-- Flooring at zero commutes with dividing a zero-floored value by a
positive ratio. -/
theorem max_zero_div_of_pos (x a : ℚ) (ha : 0 < a) :
    max 0 (max 0 x / a) = max 0 (x / a) := by
  rcases le_total x 0 with h | h
  · have h2 : x / a ≤ 0 := div_nonpos_iff.mpr (Or.inr ⟨h, ha.le⟩)
    rw [max_eq_left h, zero_div, max_self, max_eq_left h2]
  · rw [max_eq_right h]

/-- Flooring at zero commutes with multiplying a zero-floored value by a
positive ratio. -/
theorem max_zero_mul_of_pos (x a : ℚ) (ha : 0 < a) :
    max 0 (max 0 x * a) = max 0 (x * a) := by
  rcases le_total x 0 with h | h
  · have h2 : x * a ≤ 0 := mul_nonpos_iff.mpr (Or.inr ⟨h, ha.le⟩)
    rw [max_eq_left h, zero_mul, max_self, max_eq_left h2]
  · rw [max_eq_right h]

/-- C4: when the intrinsic aspect ratio is positive and exactly one axis is
constrained (exact or at-most) while the other is unconstrained, the
measured value of the unconstrained axis is recomputed from the measured
constrained axis via the ratio (height = width / ratio, width = height ×
ratio), both floored at zero. -/
theorem yogaMeasureReplaced_aspect (intrinsicW intrinsicH aspect width height : ℚ)
    (width_mode height_mode : MeasureMode) (ha : 0 < aspect) :
    ((width_mode = .exactly ∨ width_mode = .atMost) → height_mode = .undefined →
      (yogaMeasureReplaced intrinsicW intrinsicH aspect width width_mode height height_mode).2 =
        max 0 ((yogaMeasureReplaced intrinsicW intrinsicH aspect width width_mode
          height height_mode).1 / aspect)) ∧
    ((height_mode = .exactly ∨ height_mode = .atMost) → width_mode = .undefined →
      (yogaMeasureReplaced intrinsicW intrinsicH aspect width width_mode height height_mode).1 =
        max 0 ((yogaMeasureReplaced intrinsicW intrinsicH aspect width width_mode
          height height_mode).2 * aspect)) := by
  constructor
  · rintro (rfl | rfl) rfl
    · simp only [yogaMeasureReplaced]
      split_ifs <;>
        first
          | exact (max_zero_div_of_pos (max 0 width) aspect ha).symm
          | simp_all
    · simp only [yogaMeasureReplaced]
      split_ifs <;>
        first
          | exact (max_zero_div_of_pos (min intrinsicW (max 0 width)) aspect ha).symm
          | simp_all
  · rintro (rfl | rfl) rfl
    · simp only [yogaMeasureReplaced]
      split_ifs <;>
        first
          | exact (max_zero_mul_of_pos (max 0 height) aspect ha).symm
          | simp_all
    · simp only [yogaMeasureReplaced]
      split_ifs <;>
        first
          | exact (max_zero_mul_of_pos (min intrinsicH (max 0 height)) aspect ha).symm
          | simp_all

/-- C4 witness: intrinsic size (200, 100), ratio 2, width constrained
exactly to 100 and height unconstrained measure to (100, 50), consistent
with the aspect-ratio rule. -/
theorem yogaMeasureReplaced_aspect_wit :
    yogaMeasureReplaced 200 100 2 100 .exactly 0 .undefined = (100, 50) ∧
    (yogaMeasureReplaced 200 100 2 100 .exactly 0 .undefined).2 =
      max 0 ((yogaMeasureReplaced 200 100 2 100 .exactly 0 .undefined).1 / 2) := by
  have h := (yogaMeasureReplaced_aspect 200 100 2 100 0 .exactly .undefined
    (by norm_num)).1 (Or.inl rfl) rfl
  refine ⟨?_, h⟩
  simp only [yogaMeasureReplaced]
  rw [if_pos (show (0 : ℚ) < 2 from by norm_num),
    if_pos (show (True ∨ MeasureMode.exactly = MeasureMode.atMost) ∧
        ¬(MeasureMode.undefined = MeasureMode.exactly ∨
          MeasureMode.undefined = MeasureMode.atMost) from ⟨Or.inl trivial, by simp⟩)]
  norm_num [max_def, Prod.ext_iff]

/-- The accumulated maximum line width of the measurement loop stays
non-negative. -/
theorem measureLoopText_snd_nonneg (g : LineOracle) (maxWidth : Option ℚ) :
    ∀ (fuel : ℕ) (lineBegin : ℤ) (numLines : ℕ) (maxLineWidth : ℚ),
      0 ≤ maxLineWidth →
      0 ≤ (measureLoopText g maxWidth fuel lineBegin numLines maxLineWidth).2 := by
  intro fuel
  induction fuel with
  | zero => intro b n mx h; exact h
  | succ k ih =>
    intro b n mx h
    simp only [measureLoopText]
    by_cases h1 : (g b maxWidth).lineLength ≤ 0
    · rw [if_pos h1]; exact h
    · rw [if_neg h1]
      by_cases h2 : (g b maxWidth).reachedEnd = true
      · rw [if_pos h2]; exact le_trans h (le_max_left _ _)
      · rw [if_neg h2]; exact ih _ _ _ (le_trans h (le_max_left _ _))

/-- C3 counterexample: with empty text and font metrics ascent -1, descent
0, the claimed tight line height `ascent + |descent|` is -1 and the claimed
unconstrained height `lines × tight` is -1, but the measurement (whose
tight height is floored at zero) returns height 0; likewise an exact width
constraint of -5 is claimed to be forced verbatim but the code returns the
zero-clamped width 0. -/
theorem yogaMeasureText_cex :
    yogaMeasureText emptyTextOracle ⟨-1, 0⟩ (-5) .exactly 0 .undefined = (0, 0) ∧
    (1 : ℚ) * ((-1) + |(0 : ℚ)|) = -1 ∧
    ((0 : ℚ) ≠ -1 ∧ (0 : ℚ) ≠ -5) := by
  have hloop : textMeasureRaw emptyTextOracle (-5) .exactly = (0, 0) := by
    rw [textMeasureRaw, maxIterationCount, show (4096 : ℕ) = 4095 + 1 from rfl]
    simp [measureLoopText, emptyTextOracle]
  have h1 : naturalTextWidth emptyTextOracle (-5) .exactly = 0 := by
    rw [naturalTextWidth, hloop]
  have h2 : measuredNumLines emptyTextOracle (-5) .exactly = 1 := by
    simp [measuredNumLines, hloop]
  refine ⟨?_, by norm_num, by norm_num, by norm_num⟩
  simp only [yogaMeasureText, h1, h2, tightLineHeight]
  norm_num [max_def, Prod.ext_iff]

/-- C3 amended: the text measurement produces at least one line (so empty
text reserves one line's height), returns non-negative dimensions, and
clamps per mode: exact forces the dimension to the zero-clamped
constraint, at-most takes the minimum of the natural value and the
zero-clamped constraint, unconstrained keeps the natural value (max line
width, or line count times the zero-floored tight line height
`max 0 (ascent + |descent|)`). -/
theorem yogaMeasureText_modes (g : LineOracle) (m : FontMetrics) (width height : ℚ)
    (width_mode height_mode : MeasureMode) :
    1 ≤ measuredNumLines g width width_mode ∧
    0 ≤ (yogaMeasureText g m width width_mode height height_mode).1 ∧
    0 ≤ (yogaMeasureText g m width width_mode height height_mode).2 ∧
    (yogaMeasureText g m width width_mode height height_mode).1 =
      (match width_mode with
       | .exactly => max 0 width
       | .atMost => min (naturalTextWidth g width width_mode) (max 0 width)
       | .undefined => naturalTextWidth g width width_mode) ∧
    (yogaMeasureText g m width width_mode height height_mode).2 =
      (match height_mode with
       | .exactly => max 0 height
       | .atMost => min ((measuredNumLines g width width_mode : ℚ) * tightLineHeight m)
           (max 0 height)
       | .undefined => (measuredNumLines g width width_mode : ℚ) * tightLineHeight m) := by
  refine ⟨?_, ?_, ?_, ?_, ?_⟩
  · rw [measuredNumLines]
    split_ifs with h
    · exact le_rfl
    · omega
  · cases width_mode
    · exact le_max_left 0 width
    · exact le_min (measureLoopText_snd_nonneg g _ _ _ _ _ le_rfl) (le_max_left 0 width)
    · exact measureLoopText_snd_nonneg g _ _ _ _ _ le_rfl
  · cases height_mode
    · exact le_max_left 0 height
    · exact le_min (mul_nonneg (by positivity) (le_max_left 0 _)) (le_max_left 0 height)
    · exact mul_nonneg (by positivity) (le_max_left 0 _)
  · cases width_mode <;> rfl
  · cases height_mode <;> rfl

/-- The line-generation loop never shrinks the accumulated line list. -/
theorem generateTextLinesLoop_length_mono (g : LineOracle) (maxWidth baselineOffset lineHeight : ℚ) :
    ∀ (fuel : ℕ) (lineBegin : ℤ) (lineIndex : ℕ) (lines : List TextLine),
      lines.length ≤
        (generateTextLinesLoop g maxWidth baselineOffset lineHeight fuel lineBegin lineIndex lines).length := by
  intro fuel
  induction fuel with
  | zero => intro b idx acc; exact le_rfl
  | succ k ih =>
    intro b idx acc
    simp only [generateTextLinesLoop]
    by_cases h1 : (g b (some maxWidth)).lineLength ≤ 0
    · rw [if_pos h1]
      split_ifs with h2
      · simp
      · exact le_rfl
    · rw [if_neg h1]
      by_cases h2 : (g b (some maxWidth)).reachedEnd = true
      · rw [if_pos h2]; simp
      · rw [if_neg h2]
        exact le_trans (by simp) (ih _ _ _)

/-- One-step unfolding of the line-generation loop at positive fuel. -/
theorem generateTextLinesLoop_succ (g : LineOracle) (maxWidth baselineOffset lineHeight : ℚ)
    (fuel : ℕ) (lineBegin : ℤ) (lineIndex : ℕ) (lines : List TextLine) :
    generateTextLinesLoop g maxWidth baselineOffset lineHeight (fuel + 1) lineBegin lineIndex lines =
      if (g lineBegin (some maxWidth)).lineLength ≤ 0 then
        (if lineIndex = 0 then lines ++ [⟨(0, baselineOffset), ""⟩] else lines)
      else if (g lineBegin (some maxWidth)).reachedEnd then
        lines ++ [⟨(0, baselineOffset + (lineIndex : ℚ) * lineHeight),
          (g lineBegin (some maxWidth)).line⟩]
      else
        generateTextLinesLoop g maxWidth baselineOffset lineHeight fuel
          (lineBegin + (g lineBegin (some maxWidth)).lineLength) (lineIndex + 1)
          (lines ++ [⟨(0, baselineOffset + (lineIndex : ℚ) * lineHeight),
            (g lineBegin (some maxWidth)).line⟩]) := rfl

/-- C6: for any line collaborator, available width and line height, the
bounded line-generation of `GenerateTextLines` produces at least one line;
when the first line-break request consumes no characters (empty text), it
produces exactly one empty line positioned at the baseline offset. -/
theorem generateTextLines_spec (g : LineOracle) (availableWidth : ℚ) (m : FontMetrics)
    (lineHeightIn : ℚ) :
    1 ≤ (generateTextLines g availableWidth m lineHeightIn).length ∧
    ((g 0 (some (max 0 availableWidth))).lineLength ≤ 0 →
      generateTextLines g availableWidth m lineHeightIn =
        [⟨(0, genBaselineOffset m lineHeightIn), ""⟩]) := by
  constructor
  · rw [generateTextLines, maxIterationCount, show (4096 : ℕ) = 4095 + 1 from rfl,
      generateTextLinesLoop_succ]
    by_cases h1 : (g 0 (some (max 0 availableWidth))).lineLength ≤ 0
    · rw [if_pos h1, if_pos rfl]
      simp
    · rw [if_neg h1]
      by_cases h2 : (g 0 (some (max 0 availableWidth))).reachedEnd = true
      · rw [if_pos h2]; simp
      · rw [if_neg h2]
        exact le_trans (by simp) (generateTextLinesLoop_length_mono g _ _ _ 4095 _ _ _)
  · intro h0
    rw [generateTextLines, maxIterationCount, show (4096 : ℕ) = 4095 + 1 from rfl,
      generateTextLinesLoop_succ]
    rw [if_pos h0, if_pos rfl]
    simp

/-- C6 witness: for the empty-text collaborator at available width 5 with
ascent 4, descent -1 and line height 10, exactly one empty line is emitted
at the baseline offset, and the line count is at least one. -/
theorem generateTextLines_wit :
    generateTextLines emptyTextOracle 5 ⟨4, -1⟩ 10 =
      [⟨(0, genBaselineOffset ⟨4, -1⟩ 10), ""⟩] ∧
    1 ≤ (generateTextLines emptyTextOracle 5 ⟨4, -1⟩ 10).length ∧
    genBaselineOffset ⟨4, -1⟩ 10 = 6 := by
  refine ⟨(generateTextLines_spec emptyTextOracle 5 ⟨4, -1⟩ 10).2 le_rfl,
    (generateTextLines_spec emptyTextOracle 5 ⟨4, -1⟩ 10).1, ?_⟩
  norm_num [genBaselineOffset, max_def]

/-- C7 counterexample: a text element that reports one child does have its
child expanded into the generic tree (the leaf test additionally requires
zero children), so the node carries one child and no measure callback,
contradicting the claim that a text element's children are never
expanded. -/
theorem buildYogaTree_text_child_cex :
    (Elem.mk true none [some (.mk true none [])]).textual = true ∧
    (buildYogaTree (.mk true none [some (.mk true none [])])).children.length = 1 ∧
    (buildYogaTree (.mk true none [some (.mk true none [])])).hasMeasure = false := by
  refine ⟨rfl, ?_, ?_⟩ <;>
    simp [buildYogaTree, buildYogaChildren, YNode.children, YNode.hasMeasure]

/-- C7 amended: an Element with zero children that is a text element or
reports valid intrinsic dimensions becomes a measured leaf: no children
are expanded, a measure callback is attached, and a baseline callback is
attached exactly when it is a text element.  (An element with children is
expanded normally even if it is text or intrinsically sized.) -/
theorem buildYogaTree_leaf_amended (e : Elem) (hleaf : e.children = [])
    (h : e.textual = true ∨ e.intrinsic.isSome = true) :
    buildYogaTree e = .mk true e.textual [] := by
  obtain ⟨t, i, cs⟩ := e
  simp only [Elem.children] at hleaf
  subst hleaf
  simp only [Elem.textual, Elem.intrinsic] at h ⊢
  rcases h with h | h <;> simp [buildYogaTree, h]

/-- C7 witness: a childless text element becomes a measured leaf with a
baseline callback and no expanded children. -/
theorem buildYogaTree_leaf_wit :
    buildYogaTree (.mk true none []) = .mk true true [] ∧
    (buildYogaTree (.mk true none [])).hasBaseline = true ∧
    (buildYogaTree (.mk true none [])).children = [] := by
  have h := buildYogaTree_leaf_amended (.mk true none []) rfl (Or.inl rfl)
  exact ⟨h, by rw [h]; rfl, by rw [h]; rfl⟩

/-- The child-application loop is a map over the children with a `(0,0)`
parent content position. -/
theorem applyLayoutChildren_eq_map :
    ∀ cs : List LayoutNode,
      applyLayoutChildren cs = cs.map (fun c => applyLayoutRecursive c (0, 0)) := by
  intro cs
  induction cs with
  | nil => simp [applyLayoutChildren]
  | cons c rest ih => simp [applyLayoutChildren, ih]

/-- `scrollInvList` holds exactly when the invariant check holds for every
member of the list. -/
theorem scrollInvList_iff :
    ∀ es : List AppliedElem,
      scrollInvList es = true ↔ ∀ e ∈ es, scrollInvAll e = true := by
  intro es
  induction es with
  | nil => simp [scrollInvList]
  | cons e rest ih => simp [scrollInvList, ih]

/-- Bounded-size induction step for the scrollable-overflow invariant. -/
theorem scrollInvAll_applyLayout_aux :
    ∀ (k : ℕ) (n : LayoutNode) (parentContentPos : ℚ × ℚ), sizeOf n ≤ k →
      scrollInvAll (applyLayoutRecursive n parentContentPos) = true := by
  intro k
  induction k with
  | zero =>
    intro n pcp h
    exfalso
    obtain ⟨v, cs⟩ := n
    simp [LayoutNode.mk.sizeOf_spec] at h
  | succ k ih =>
    intro n pcp h
    obtain ⟨v, cs⟩ := n
    rw [applyLayoutRecursive, scrollInvAll]
    simp only [Bool.and_eq_true, decide_eq_true_eq]
    refine ⟨⟨le_max_left _ _, le_max_left _ _⟩, ?_⟩
    rw [applyLayoutChildren_eq_map, scrollInvList_iff]
    intro e he
    rw [List.mem_map] at he
    obtain ⟨c, hc, rfl⟩ := he
    have h1 := List.sizeOf_lt_of_mem hc
    have h2 : sizeOf (LayoutNode.mk v cs) = 1 + sizeOf v + sizeOf cs := by
      simp [LayoutNode.mk.sizeOf_spec]
    exact ih c (0, 0) (by omega)

/-- C8: for every element processed by `ApplyLayoutRecursive` (the root
and, recursively, all its descendants), the scrollable overflow size
written to the element is at least the padding-expanded content box size
on each axis. -/
theorem scrollable_overflow_lower_bound (n : LayoutNode) (parentContentPos : ℚ × ℚ) :
    scrollInvAll (applyLayoutRecursive n parentContentPos) = true :=
  scrollInvAll_applyLayout_aux (sizeOf n) n parentContentPos le_rfl

/-- C10: `FontFace::GetHandle` is memoizing and idempotent: a second call
with the same size and weight delta (even with a different
load-default-glyphs flag) returns the same pointer and leaves the state
unchanged; deltas are clamped at zero before keying; and a failed
initialization stores a null entry under the key, so every subsequent call
with the same size and delta returns null without consulting the
initializer again. -/
theorem getHandle_memoization (initOk : ℤ → Bool → ℤ → Bool) (st : FontFaceState)
    (size : ℤ) (load1 load2 : Bool) (delta : ℤ) :
    ((getHandle initOk (getHandle initOk st size load1 delta).2 size load2 delta).1 =
        (getHandle initOk st size load1 delta).1 ∧
      (getHandle initOk (getHandle initOk st size load1 delta).2 size load2 delta).2 =
        (getHandle initOk st size load1 delta).2) ∧
    getHandle initOk st size load1 delta = getHandle initOk st size load1 (max delta 0) ∧
    (st.handles (makeHandleKey size (max delta 0)) = none → st.faceValid = true →
      initOk size load1 (max delta 0) = false →
      (getHandle initOk st size load1 delta).1 = none ∧
      (getHandle initOk st size load1 delta).2.handles (makeHandleKey size (max delta 0)) =
        some none ∧
      ∀ (initOk2 : ℤ → Bool → ℤ → Bool) (load3 : Bool),
        getHandle initOk2 (getHandle initOk st size load1 delta).2 size load3 delta =
          (none, (getHandle initOk st size load1 delta).2)) := by
  have hclamp : max (max delta 0) 0 = max delta 0 := max_eq_left (le_max_right delta 0)
  refine ⟨?_, ?_, ?_⟩
  · simp only [getHandle]
    cases hfind : st.handles (makeHandleKey size (max delta 0)) with
    | some v => simp [hfind]
    | none =>
      cases hvalid : st.faceValid with
      | false => simp [hfind, hvalid]
      | true =>
        cases hinit : initOk size load1 (max delta 0) with
        | true => simp [hfind, hvalid, hinit]
        | false => simp [hfind, hvalid, hinit]
  · simp only [getHandle, hclamp]
  · intro hfind hvalid hinit
    refine ⟨?_, ?_, ?_⟩
    · simp [getHandle, hfind, hvalid, hinit]
    · simp [getHandle, hfind, hvalid, hinit]
    · intro initOk2 load3
      simp [getHandle, hfind, hvalid, hinit]

/-- C10 witness: on a fresh live state whose initializer fails at size 2,
the first call (with delta -3, clamped to 0) returns null and stores a
null entry, and a subsequent call — even with an initializer that would
now succeed and a different load flag — returns null with the state
unchanged. -/
theorem getHandle_memoization_wit :
    (getHandle (fun _ _ _ => false) freshFontFaceState 2 true (-3)).1 = none ∧
    (getHandle (fun _ _ _ => false) freshFontFaceState 2 true (-3)).2.handles
      (makeHandleKey 2 (max (-3) 0)) = some none ∧
    getHandle (fun _ _ _ => true)
        (getHandle (fun _ _ _ => false) freshFontFaceState 2 true (-3)).2 2 false (-3) =
      (none, (getHandle (fun _ _ _ => false) freshFontFaceState 2 true (-3)).2) := by
  have h := (getHandle_memoization (fun _ _ _ => false) freshFontFaceState 2 true true
    (-3)).2.2 rfl rfl rfl
  exact ⟨h.1, h.2.1, h.2.2 _ _⟩

end Layout
